import Mathlib

/-!
Verification of the retrying OTLP telemetry sender in
`acp-example/otel/otel-test-traces.py`.

The script builds three hard-coded OTLP JSON payloads (logs, metrics,
traces), sends each via HTTP POST with a bounded retry loop, prints the
generated trace/span ids and a summary, and exits 0 iff all three sends
succeeded.

The embedding below models:
  - JSON documents as an inductive `Json` type; the three payload literals
    are transcribed field by field from the source;
  - the outcome of each `requests.post` call as a `PostOutcome` (a response
    with a status code and body, or one of the three caught exception
    classes: `ConnectionError`, `Timeout`, other `RequestException`);
  - `response.raise_for_status()` as raising exactly for status codes in
    400..599 (the behavior of `requests`' `raise_for_status`, matching the
    source comment "Raise exception for 4XX/5XX responses"); the raised
    `HTTPError` is a `RequestException` and is caught by the third handler;
  - `send_telemetry` as a recursion over the attempt indices
    `List.range MAX_RETRIES`, mirroring `for attempt in range(MAX_RETRIES)`,
    threading a trace that records every POST call (url, headers, body) and
    every `time.sleep` duration;
  - the main sequence (three sends, success count, printed lines, exit code)
    as `main_run`, parameterized by the random inputs captured at process
    start and by an environment giving the outcome of every POST attempt.
-/

/-- JSON values, enough for the OTLP payloads of the script. -/
inductive Json where
  | str (s : String)
  | num (n : Int)
  | obj (fields : List (String × Json))
  | arr (elems : List Json)

/-- Field lookup on a JSON object (first binding wins), `none` otherwise. -/
def Json.getField : Json → String → Option Json
  | .obj fields, k => (fields.find? (fun p => p.1 == k)).map (fun p => p.2)
  | _, _ => none

/-- Index lookup in a JSON array, `none` otherwise. -/
def Json.getIndex : Json → Nat → Option Json
  | .arr elems, i => elems.get? i
  | _, _ => none

/-- Maximum number of POST attempts (`MAX_RETRIES = 3`). -/
def MAX_RETRIES : Nat := 3

/-- Seconds slept between attempts (`RETRY_DELAY = 2`). -/
def RETRY_DELAY : Nat := 2

/-- Base URL (`url_base = "http://localhost:4318/v1"`). -/
def url_base : String := "http://localhost:4318/v1"

/-- Request headers sent with every POST. -/
def headers : List (String × String) := [("Content-Type", "application/json")]

/-- An HTTP response as seen by the script: status code and body text. -/
structure Response where
  status_code : Nat
  text : String
deriving DecidableEq, Repr

/-- Outcome of one `requests.post` call: either a response, or one of the
three exception classes the script catches. -/
inductive PostOutcome where
  | response (r : Response)
  | connectionError
  | timeout
  | otherRequestException
deriving DecidableEq, Repr

/-- Whether `response.raise_for_status()` raises `HTTPError`: it does exactly
for status codes 400..599 (4XX client errors and 5XX server errors). -/
def raiseForStatusRaises (status : Nat) : Bool :=
  decide (400 ≤ status ∧ status < 600)

/-- Whether one attempt with this outcome ends in an exception being caught
(and hence a retry): every exception outcome, and any response whose status
makes `raise_for_status` raise. -/
def attemptFails (o : PostOutcome) : Bool :=
  match o with
  | .response r => raiseForStatusRaises r.status_code
  | .connectionError => true
  | .timeout => true
  | .otherRequestException => true

/-- One recorded POST call: target URL, headers, JSON body. -/
structure PostCall where
  url : String
  post_headers : List (String × String)
  body : Json

/-- Observable side effects of one `send_telemetry` call: the POST calls
made, in order, and the sleep durations performed, in order. -/
structure SendTrace where
  calls : List PostCall
  sleeps : List Nat

/-- Return value of `send_telemetry`: the Python tuple `(True, response)` on
success, `(False, message)` on exhaustion. -/
inductive SendOutcome where
  | ok (r : Response)
  | err (msg : String)

/-- 1 if the send succeeded, else 0 (the `success_count += 1` increment). -/
def SendOutcome.succFlag : SendOutcome → Nat
  | .ok _ => 1
  | .err _ => 0

/-- The retry loop of `send_telemetry`, recursing over the remaining attempt
indices (`for attempt in range(MAX_RETRIES)`). Each iteration records one
POST; a response that passes `raise_for_status` returns `(True, response)`
immediately; each caught exception falls through to the sleep (skipped after
the last attempt, `attempt < MAX_RETRIES - 1`) and the next iteration; an
empty list of remaining attempts returns the failure tuple. -/
def sendLoopAux (url : String) (payload : Json) (telemetry_type : String)
    (outcomes : Nat → PostOutcome) :
    List Nat → SendTrace → SendOutcome × SendTrace
  | [], tr =>
    (.err ("Failed to send " ++ telemetry_type ++ " after " ++
        toString MAX_RETRIES ++ " attempts"), tr)
  | attempt :: rest, tr =>
    let tr1 : SendTrace :=
      { tr with calls := tr.calls ++ [⟨url, headers, payload⟩] }
    match outcomes attempt with
    | .response r =>
      if raiseForStatusRaises r.status_code then
        sendLoopAux url payload telemetry_type outcomes rest
          (if attempt < MAX_RETRIES - 1 then
            { tr1 with sleeps := tr1.sleeps ++ [RETRY_DELAY] }
          else tr1)
      else
        (.ok r, tr1)
    | .connectionError =>
        sendLoopAux url payload telemetry_type outcomes rest
          (if attempt < MAX_RETRIES - 1 then
            { tr1 with sleeps := tr1.sleeps ++ [RETRY_DELAY] }
          else tr1)
    | .timeout =>
        sendLoopAux url payload telemetry_type outcomes rest
          (if attempt < MAX_RETRIES - 1 then
            { tr1 with sleeps := tr1.sleeps ++ [RETRY_DELAY] }
          else tr1)
    | .otherRequestException =>
        sendLoopAux url payload telemetry_type outcomes rest
          (if attempt < MAX_RETRIES - 1 then
            { tr1 with sleeps := tr1.sleeps ++ [RETRY_DELAY] }
          else tr1)

/-- `send_telemetry(endpoint, payload, telemetry_type)`: POSTs the payload to
`url_base + "/" + endpoint` up to `MAX_RETRIES` times. `outcomes` gives the
result of the POST at each attempt index. Returns the Python return tuple
together with the trace of POSTs and sleeps. -/
def send_telemetry (endpoint : String) (payload : Json)
    (telemetry_type : String) (outcomes : Nat → PostOutcome) :
    SendOutcome × SendTrace :=
  sendLoopAux (url_base ++ "/" ++ endpoint) payload telemetry_type outcomes
    (List.range MAX_RETRIES) ⟨[], []⟩

/-- Lowercase hexadecimal digit for a value below 16 (as `bytes.hex()`
produces): 0..9 map to characters 48..57, 10..15 to characters 97..102. -/
def hexDigit (n : Nat) : Char :=
  if n < 10 then Char.ofNat (48 + n) else Char.ofNat (87 + n)

/-- Characters of the lowercase hex encoding of a byte string, two digits per
byte, most significant nibble first (`bytes.hex()`). -/
def bytesToHexChars : List Nat → List Char
  | [] => []
  | b :: bs => hexDigit (b / 16) :: hexDigit (b % 16) :: bytesToHexChars bs

/-- `bytes.hex()`: lowercase hex encoding of a byte string. -/
def bytesToHex (bs : List Nat) : String :=
  String.mk (bytesToHexChars bs)

/-- Whether a character is a lowercase hexadecimal digit (0-9 or a-f). -/
def isLowerHexDigit (c : Char) : Bool :=
  c.isDigit || ('a' ≤ c && c ≤ 'f')

/-- The `logs_payload` literal, parameterized by `current_time_ns`. -/
def logs_payload (current_time_ns : Nat) : Json :=
  .obj [("resourceLogs", .arr [
    .obj [
      ("resource", .obj [
        ("attributes", .arr [
          .obj [("key", .str "service.name"),
                ("value", .obj [("stringValue", .str "curl-test-service")])]])]),
      ("scopeLogs", .arr [
        .obj [
          ("scope", .obj [("name", .str "curl-test-scope")]),
          ("logRecords", .arr [
            .obj [
              ("timeUnixNano", .str (toString current_time_ns)),
              ("severityNumber", .num 9),
              ("severityText", .str "INFO"),
              ("body", .obj [("stringValue", .str "Hello from test service!")]),
              ("attributes", .arr [
                .obj [("key", .str "service.name"),
                      ("value", .obj [
                        ("stringValue", .str "curl-test-service")])]])]])]])]])]

/-- The `metrics_payload` literal, parameterized by `current_time_ns` and by
the value drawn by `random.randint(0, 100)` (an integer in 0..100, both ends
included). -/
def metrics_payload (current_time_ns : Nat) (metric_value : Nat) : Json :=
  .obj [("resourceMetrics", .arr [
    .obj [
      ("resource", .obj [
        ("attributes", .arr [
          .obj [("key", .str "service.name"),
                ("value", .obj [("stringValue", .str "curl-test-service")])]])]),
      ("scopeMetrics", .arr [
        .obj [
          ("scope", .obj [("name", .str "curl-test-scope")]),
          ("metrics", .arr [
            .obj [
              ("name", .str "curl.test.metric"),
              ("description", .str "Test metric"),
              ("unit", .str "1"),
              ("gauge", .obj [
                ("dataPoints", .arr [
                  .obj [
                    ("timeUnixNano", .str (toString current_time_ns)),
                    ("asInt", .num metric_value)]])])]])]])]])]

/-- The `trace_payload` literal, parameterized by `current_time_ns` and the
three hex id strings (`trace_id_hex`, `parent_span_id_hex`,
`child_span_id_hex`). -/
def trace_payload (current_time_ns : Nat)
    (trace_id_hex parent_span_id_hex child_span_id_hex : String) : Json :=
  .obj [("resourceSpans", .arr [
    .obj [
      ("resource", .obj [
        ("attributes", .arr [
          .obj [("key", .str "service.name"),
                ("value", .obj [
                  ("stringValue", .str "python-random-service")])]])]),
      ("scopeSpans", .arr [
        .obj [
          ("scope", .obj [("name", .str "python-random-scope")]),
          ("spans", .arr [
            .obj [
              ("traceId", .str trace_id_hex),
              ("spanId", .str parent_span_id_hex),
              ("name", .str "parent-operation"),
              ("kind", .str "SPAN_KIND_SERVER"),
              ("startTimeUnixNano", .str (toString current_time_ns)),
              ("endTimeUnixNano",
                .str (toString (current_time_ns + 30000000000))),
              ("attributes", .arr [
                .obj [("key", .str "operation.type"),
                      ("value", .obj [("stringValue", .str "parent")])]])],
            .obj [
              ("traceId", .str trace_id_hex),
              ("spanId", .str child_span_id_hex),
              ("parentSpanId", .str parent_span_id_hex),
              ("name", .str "child-operation"),
              ("kind", .str "SPAN_KIND_INTERNAL"),
              ("startTimeUnixNano",
                .str (toString (current_time_ns + 5000000000))),
              ("endTimeUnixNano",
                .str (toString (current_time_ns + 15000000000))),
              ("attributes", .arr [
                .obj [("key", .str "operation.type"),
                      ("value", .obj [("stringValue", .str "child")])]])]])]])]])]

/-- The span at index `i` of the trace payload (0 = parent, 1 = child). -/
def traceSpan (current_time_ns : Nat) (tid pid cid : String) (i : Nat) :
    Option Json :=
  ((((((trace_payload current_time_ns tid pid cid).getField
      "resourceSpans").bind (fun j => j.getIndex 0)).bind
      (fun j => j.getField "scopeSpans")).bind
      (fun j => j.getIndex 0)).bind
      (fun j => j.getField "spans")).bind
      (fun j => j.getIndex i)

/-- The single log record of the logs payload. -/
def logRecord (current_time_ns : Nat) : Option Json :=
  ((((((logs_payload current_time_ns).getField
      "resourceLogs").bind (fun j => j.getIndex 0)).bind
      (fun j => j.getField "scopeLogs")).bind
      (fun j => j.getIndex 0)).bind
      (fun j => j.getField "logRecords")).bind
      (fun j => j.getIndex 0)

/-- The single gauge data point of the metrics payload. -/
def metricDataPoint (current_time_ns metric_value : Nat) : Option Json :=
  (((((((((metrics_payload current_time_ns metric_value).getField
      "resourceMetrics").bind (fun j => j.getIndex 0)).bind
      (fun j => j.getField "scopeMetrics")).bind
      (fun j => j.getIndex 0)).bind
      (fun j => j.getField "metrics")).bind
      (fun j => j.getIndex 0)).bind
      (fun j => j.getField "gauge")).bind
      (fun j => j.getField "dataPoints")).bind
      (fun j => j.getIndex 0)

/-- The random inputs the script draws once at process start:
`time.time_ns()`, `random.randint(0, 100)`, `os.urandom(16)`, and two
`os.urandom(8)` byte strings. -/
structure Randomness where
  current_time_ns : Nat
  metric_value : Nat
  trace_id_bytes : List Nat
  parent_span_id_bytes : List Nat
  child_span_id_bytes : List Nat

/-- The network environment of one run: the outcome of each POST attempt,
per telemetry type and attempt index. -/
structure Env where
  logs_outcomes : Nat → PostOutcome
  metrics_outcomes : Nat → PostOutcome
  traces_outcomes : Nat → PostOutcome

/-- Total number of send operations (`total_operations = 3`). -/
def total_operations : Nat := 3

/-- Observable result of the whole script run. -/
structure MainResult where
  logs_result : SendOutcome
  metrics_result : SendOutcome
  traces_result : SendOutcome
  logs_trace : SendTrace
  metrics_trace : SendTrace
  traces_trace : SendTrace
  printed : List String
  success_count : Nat
  exit_code : Nat

/-- The per-type status/error lines printed after one send. -/
def reportLines (label : String) (outcome : SendOutcome) : List String :=
  match outcome with
  | .ok r => [label ++ " Status code: " ++ toString r.status_code,
              label ++ " Response body: " ++ r.text]
  | .err m => [label ++ " Error: " ++ m]

/-- The main sequence of the script: build the three payloads from the
captured random inputs, send logs, then metrics, then traces, count the
successes, print the per-type reports, the generated ids (always), the
summary line, and the final status line, and set the exit code (0 only when
all `total_operations` sends succeeded, else 1). -/
def main_run (rnd : Randomness) (env : Env) : MainResult :=
  let trace_id_hex := bytesToHex rnd.trace_id_bytes
  let parent_span_id_hex := bytesToHex rnd.parent_span_id_bytes
  let child_span_id_hex := bytesToHex rnd.child_span_id_bytes
  let lr := send_telemetry "logs" (logs_payload rnd.current_time_ns) "logs"
    env.logs_outcomes
  let mr := send_telemetry "metrics"
    (metrics_payload rnd.current_time_ns rnd.metric_value) "metrics"
    env.metrics_outcomes
  let tr := send_telemetry "traces"
    (trace_payload rnd.current_time_ns trace_id_hex parent_span_id_hex
      child_span_id_hex) "traces" env.traces_outcomes
  let success_count := lr.1.succFlag + mr.1.succFlag + tr.1.succFlag
  let idLines := ["Generated traceId: " ++ trace_id_hex,
    "Generated parent spanId: " ++ parent_span_id_hex,
    "Generated child spanId: " ++ child_span_id_hex]
  let summaryLine := "\nSummary: " ++ toString success_count ++ "/" ++
    toString total_operations ++ " operations completed successfully"
  let exitLine :=
    if success_count == 0 then
      "All telemetry operations failed. Check if the OpenTelemetry endpoint is available."
    else if success_count < total_operations then
      "Some telemetry operations failed. Check the logs for details."
    else
      "All telemetry operations completed successfully."
  let exit_code :=
    if success_count == 0 then 1
    else if success_count < total_operations then 1
    else 0
  { logs_result := lr.1, metrics_result := mr.1, traces_result := tr.1,
    logs_trace := lr.2, metrics_trace := mr.2, traces_trace := tr.2,
    printed := reportLines "Logs" lr.1 ++ reportLines "Metrics" mr.1 ++
      reportLines "Traces" tr.1 ++ idLines ++ [summaryLine, exitLine],
    success_count := success_count, exit_code := exit_code }

/-- Whether a send outcome is the success tuple. -/
def SendOutcome.isOk : SendOutcome → Prop
  | .ok _ => True
  | .err _ => False

/-! ## Helper lemmas about the retry loop -/

theorem sendLoopAux_nil (u : String) (p : Json) (t : String)
    (o : Nat → PostOutcome) (tr : SendTrace) :
    sendLoopAux u p t o [] tr =
      (.err ("Failed to send " ++ t ++ " after " ++ toString MAX_RETRIES ++
        " attempts"), tr) := rfl

theorem sendLoopAux_step_fail (u : String) (p : Json) (t : String)
    (o : Nat → PostOutcome) (a : Nat) (rest : List Nat) (tr : SendTrace)
    (h : attemptFails (o a) = true) :
    sendLoopAux u p t o (a :: rest) tr =
      sendLoopAux u p t o rest
        ⟨tr.calls ++ [⟨u, headers, p⟩],
          tr.sleeps ++ if a < MAX_RETRIES - 1 then [RETRY_DELAY] else []⟩ := by
  cases ho : o a with
  | response r =>
    have hr : raiseForStatusRaises r.status_code = true := by
      simpa [attemptFails, ho] using h
    by_cases hlt : a < MAX_RETRIES - 1 <;>
      simp [sendLoopAux, ho, hr, hlt]
  | connectionError =>
    by_cases hlt : a < MAX_RETRIES - 1 <;> simp [sendLoopAux, ho, hlt]
  | timeout =>
    by_cases hlt : a < MAX_RETRIES - 1 <;> simp [sendLoopAux, ho, hlt]
  | otherRequestException =>
    by_cases hlt : a < MAX_RETRIES - 1 <;> simp [sendLoopAux, ho, hlt]

theorem sendLoopAux_step_ok (u : String) (p : Json) (t : String)
    (o : Nat → PostOutcome) (a : Nat) (rest : List Nat) (tr : SendTrace)
    (r : Response) (ho : o a = .response r)
    (hr : raiseForStatusRaises r.status_code = false) :
    sendLoopAux u p t o (a :: rest) tr =
      (.ok r, ⟨tr.calls ++ [⟨u, headers, p⟩], tr.sleeps⟩) := by
  simp [sendLoopAux, ho, hr]

theorem sendLoopAux_calls_ge (u : String) (p : Json) (t : String)
    (o : Nat → PostOutcome) :
    ∀ (l : List Nat) (tr : SendTrace),
      tr.calls.length ≤ (sendLoopAux u p t o l tr).2.calls.length := by
  intro l
  induction l with
  | nil => intro tr; simp [sendLoopAux]
  | cons a rest ih =>
    intro tr
    cases ho : o a with
    | response r =>
      by_cases hr : raiseForStatusRaises r.status_code
      · rw [sendLoopAux_step_fail u p t o a rest tr (by simp [attemptFails, ho, hr])]
        refine le_trans ?_ (ih _)
        simp
      · rw [sendLoopAux_step_ok u p t o a rest tr r ho (by simpa using hr)]
        simp
    | connectionError =>
      rw [sendLoopAux_step_fail u p t o a rest tr (by simp [attemptFails, ho])]
      refine le_trans ?_ (ih _)
      simp
    | timeout =>
      rw [sendLoopAux_step_fail u p t o a rest tr (by simp [attemptFails, ho])]
      refine le_trans ?_ (ih _)
      simp
    | otherRequestException =>
      rw [sendLoopAux_step_fail u p t o a rest tr (by simp [attemptFails, ho])]
      refine le_trans ?_ (ih _)
      simp

theorem sendLoopAux_calls_cons (u : String) (p : Json) (t : String)
    (o : Nat → PostOutcome) (a : Nat) (rest : List Nat) (tr : SendTrace) :
    tr.calls.length + 1 ≤ (sendLoopAux u p t o (a :: rest) tr).2.calls.length := by
  cases ho : o a with
  | response r =>
    by_cases hr : raiseForStatusRaises r.status_code
    · rw [sendLoopAux_step_fail u p t o a rest tr (by simp [attemptFails, ho, hr])]
      refine le_trans ?_ (sendLoopAux_calls_ge u p t o rest _)
      simp
    · rw [sendLoopAux_step_ok u p t o a rest tr r ho (by simpa using hr)]
      simp
  | connectionError =>
    rw [sendLoopAux_step_fail u p t o a rest tr (by simp [attemptFails, ho])]
    refine le_trans ?_ (sendLoopAux_calls_ge u p t o rest _)
    simp
  | timeout =>
    rw [sendLoopAux_step_fail u p t o a rest tr (by simp [attemptFails, ho])]
    refine le_trans ?_ (sendLoopAux_calls_ge u p t o rest _)
    simp
  | otherRequestException =>
    rw [sendLoopAux_step_fail u p t o a rest tr (by simp [attemptFails, ho])]
    refine le_trans ?_ (sendLoopAux_calls_ge u p t o rest _)
    simp

theorem sendLoopAux_result_shape (u : String) (p : Json) (t : String)
    (o : Nat → PostOutcome) :
    ∀ (l : List Nat) (tr : SendTrace),
      (sendLoopAux u p t o l tr).1 =
          .err ("Failed to send " ++ t ++ " after " ++ toString MAX_RETRIES ++
            " attempts") ∨
        ∃ r, (sendLoopAux u p t o l tr).1 = .ok r := by
  intro l
  induction l with
  | nil => intro tr; left; rfl
  | cons a rest ih =>
    intro tr
    cases ho : o a with
    | response r =>
      by_cases hr : raiseForStatusRaises r.status_code
      · rw [sendLoopAux_step_fail u p t o a rest tr (by simp [attemptFails, ho, hr])]
        exact ih _
      · rw [sendLoopAux_step_ok u p t o a rest tr r ho (by simpa using hr)]
        exact Or.inr ⟨r, rfl⟩
    | connectionError =>
      rw [sendLoopAux_step_fail u p t o a rest tr (by simp [attemptFails, ho])]
      exact ih _
    | timeout =>
      rw [sendLoopAux_step_fail u p t o a rest tr (by simp [attemptFails, ho])]
      exact ih _
    | otherRequestException =>
      rw [sendLoopAux_step_fail u p t o a rest tr (by simp [attemptFails, ho])]
      exact ih _

theorem sendLoopAux_calls_all (u : String) (p : Json) (t : String)
    (o : Nat → PostOutcome) (P : PostCall → Prop) :
    ∀ (l : List Nat) (tr : SendTrace), (∀ c ∈ tr.calls, P c) →
      P ⟨u, headers, p⟩ →
      ∀ c ∈ (sendLoopAux u p t o l tr).2.calls, P c := by
  intro l
  induction l with
  | nil => intro tr htr _; simpa [sendLoopAux] using htr
  | cons a rest ih =>
    intro tr htr hp
    have htr1 : ∀ c ∈ tr.calls ++ [(⟨u, headers, p⟩ : PostCall)], P c := by
      intro c hc
      rcases List.mem_append.mp hc with h | h
      · exact htr c h
      · rcases List.mem_singleton.mp h with rfl
        exact hp
    cases ho : o a with
    | response r =>
      by_cases hr : raiseForStatusRaises r.status_code
      · rw [sendLoopAux_step_fail u p t o a rest tr (by simp [attemptFails, ho, hr])]
        exact ih _ htr1 hp
      · rw [sendLoopAux_step_ok u p t o a rest tr r ho (by simpa using hr)]
        exact htr1
    | connectionError =>
      rw [sendLoopAux_step_fail u p t o a rest tr (by simp [attemptFails, ho])]
      exact ih _ htr1 hp
    | timeout =>
      rw [sendLoopAux_step_fail u p t o a rest tr (by simp [attemptFails, ho])]
      exact ih _ htr1 hp
    | otherRequestException =>
      rw [sendLoopAux_step_fail u p t o a rest tr (by simp [attemptFails, ho])]
      exact ih _ htr1 hp
/-! ## Claim theorems C1, C2 -/

/-- C1: for every payload type and every N with 0 ≤ N < 3, a run of
`send_telemetry` in which the first N POST attempts fail and attempt N+1
returns a 2xx response performs exactly N+1 POST calls, exactly N
inter-attempt sleeps of `RETRY_DELAY` (2) seconds each, and returns the
success tuple for that response. -/
theorem send_telemetry_retries_then_succeeds (endpoint : String)
    (payload : Json) (telemetry_type : String) (outcomes : Nat → PostOutcome)
    (N : Nat) (r : Response)
    (hN : N < 3)
    (hfail : ∀ i, i < N → attemptFails (outcomes i) = true)
    (hresp : outcomes N = .response r)
    (h2l : 200 ≤ r.status_code) (h2u : r.status_code < 300) :
    (send_telemetry endpoint payload telemetry_type outcomes).1 = .ok r ∧
    (send_telemetry endpoint payload telemetry_type outcomes).2.calls =
      List.replicate (N + 1)
        ⟨url_base ++ "/" ++ endpoint, headers, payload⟩ ∧
    (send_telemetry endpoint payload telemetry_type outcomes).2.sleeps =
      List.replicate N RETRY_DELAY := by
  have hr : raiseForStatusRaises r.status_code = false := by
    simp only [raiseForStatusRaises, decide_eq_false_iff_not]
    omega
  have hrange : List.range MAX_RETRIES = [0, 1, 2] := rfl
  interval_cases N
  · rw [show send_telemetry endpoint payload telemetry_type outcomes =
        sendLoopAux (url_base ++ "/" ++ endpoint) payload telemetry_type
          outcomes [0, 1, 2] ⟨[], []⟩ from rfl,
      sendLoopAux_step_ok _ _ _ _ 0 _ _ r hresp hr]
    simp [List.replicate]
  · rw [show send_telemetry endpoint payload telemetry_type outcomes =
        sendLoopAux (url_base ++ "/" ++ endpoint) payload telemetry_type
          outcomes [0, 1, 2] ⟨[], []⟩ from rfl,
      sendLoopAux_step_fail _ _ _ _ 0 _ _ (hfail 0 (by omega)),
      sendLoopAux_step_ok _ _ _ _ 1 _ _ r hresp hr]
    simp [MAX_RETRIES, RETRY_DELAY, List.replicate]
  · rw [show send_telemetry endpoint payload telemetry_type outcomes =
        sendLoopAux (url_base ++ "/" ++ endpoint) payload telemetry_type
          outcomes [0, 1, 2] ⟨[], []⟩ from rfl,
      sendLoopAux_step_fail _ _ _ _ 0 _ _ (hfail 0 (by omega)),
      sendLoopAux_step_fail _ _ _ _ 1 _ _ (hfail 1 (by omega)),
      sendLoopAux_step_ok _ _ _ _ 2 _ _ r hresp hr]
    simp [MAX_RETRIES, RETRY_DELAY, List.replicate]

/-- Witness for C1 at N = 1: the first attempt times out, the second returns
status 200; the run makes 2 POST calls, sleeps once for 2 seconds, and
returns the success tuple. -/
theorem send_telemetry_retries_then_succeeds_witness :
    (1 < 3 ∧
      (∀ i, i < 1 → attemptFails
        ((fun j => if j = 0 then PostOutcome.timeout
          else PostOutcome.response ⟨200, "OK"⟩) i) = true) ∧
      (fun j => if j = 0 then PostOutcome.timeout
        else PostOutcome.response ⟨200, "OK"⟩) 1 =
        PostOutcome.response ⟨200, "OK"⟩ ∧
      200 ≤ (200 : Nat) ∧ (200 : Nat) < 300) ∧
    ((send_telemetry "logs" (Json.obj []) "logs"
        (fun j => if j = 0 then PostOutcome.timeout
          else PostOutcome.response ⟨200, "OK"⟩)).1 =
        .ok ⟨200, "OK"⟩ ∧
      (send_telemetry "logs" (Json.obj []) "logs"
        (fun j => if j = 0 then PostOutcome.timeout
          else PostOutcome.response ⟨200, "OK"⟩)).2.calls =
        List.replicate 2 ⟨url_base ++ "/" ++ "logs", headers, Json.obj []⟩ ∧
      (send_telemetry "logs" (Json.obj []) "logs"
        (fun j => if j = 0 then PostOutcome.timeout
          else PostOutcome.response ⟨200, "OK"⟩)).2.sleeps =
        List.replicate 1 RETRY_DELAY) :=
  ⟨⟨by decide, by decide, rfl, by decide, by decide⟩,
    send_telemetry_retries_then_succeeds "logs" (Json.obj []) "logs" _ 1
      ⟨200, "OK"⟩ (by decide) (by decide) rfl (by decide) (by decide)⟩

/-- C2: if all 3 POST attempts fail, `send_telemetry` performs exactly 3 POST
calls and exactly 2 inter-attempt sleeps, and returns the failure tuple whose
detail string names the attempt count. -/
theorem send_telemetry_exhausts_attempts (endpoint : String) (payload : Json)
    (telemetry_type : String) (outcomes : Nat → PostOutcome)
    (hfail : ∀ i, i < 3 → attemptFails (outcomes i) = true) :
    (send_telemetry endpoint payload telemetry_type outcomes).1 =
      .err ("Failed to send " ++ telemetry_type ++ " after 3 attempts") ∧
    (send_telemetry endpoint payload telemetry_type outcomes).2.calls =
      List.replicate 3 ⟨url_base ++ "/" ++ endpoint, headers, payload⟩ ∧
    (send_telemetry endpoint payload telemetry_type outcomes).2.sleeps =
      List.replicate 2 RETRY_DELAY := by
  rw [show send_telemetry endpoint payload telemetry_type outcomes =
      sendLoopAux (url_base ++ "/" ++ endpoint) payload telemetry_type
        outcomes [0, 1, 2] ⟨[], []⟩ from rfl,
    sendLoopAux_step_fail _ _ _ _ 0 _ _ (hfail 0 (by omega)),
    sendLoopAux_step_fail _ _ _ _ 1 _ _ (hfail 1 (by omega)),
    sendLoopAux_step_fail _ _ _ _ 2 _ _ (hfail 2 (by omega)),
    sendLoopAux_nil]
  refine ⟨?_, by simp [MAX_RETRIES, RETRY_DELAY, List.replicate], by
    simp [MAX_RETRIES, RETRY_DELAY, List.replicate]⟩
  have h3 : toString MAX_RETRIES = "3" := by decide
  show SendOutcome.err _ = _
  rw [h3]
  refine congrArg SendOutcome.err (String.ext ?_)
  simp only [String.data_append, List.append_assoc]
  congr 1

/-- Witness for C2: every attempt hits a connection error; the run makes 3
POST calls, sleeps twice, and returns the failure tuple for "logs". -/
theorem send_telemetry_exhausts_attempts_witness :
    (∀ i, i < 3 →
      attemptFails ((fun _ => PostOutcome.connectionError) i) = true) ∧
    ((send_telemetry "logs" (Json.obj []) "logs"
        (fun _ => PostOutcome.connectionError)).1 =
      .err ("Failed to send " ++ "logs" ++ " after 3 attempts") ∧
    (send_telemetry "logs" (Json.obj []) "logs"
        (fun _ => PostOutcome.connectionError)).2.calls =
      List.replicate 3 ⟨url_base ++ "/" ++ "logs", headers, Json.obj []⟩ ∧
    (send_telemetry "logs" (Json.obj []) "logs"
        (fun _ => PostOutcome.connectionError)).2.sleeps =
      List.replicate 2 RETRY_DELAY) :=
  ⟨by decide,
    send_telemetry_exhausts_attempts "logs" (Json.obj []) "logs" _
      (by decide)⟩

/-! ## Claim theorems C3, C5 -/

theorem exit_code_of_outcomes (x y z : SendOutcome) :
    ((if x.succFlag + y.succFlag + z.succFlag == 0 then 1
      else if x.succFlag + y.succFlag + z.succFlag < total_operations then 1
      else 0) = 0 ↔ (x.isOk ∧ y.isOk ∧ z.isOk)) ∧
    (¬(x.isOk ∧ y.isOk ∧ z.isOk) →
      (if x.succFlag + y.succFlag + z.succFlag == 0 then 1
        else if x.succFlag + y.succFlag + z.succFlag < total_operations then 1
        else 0) = 1) := by
  cases x <;> cases y <;> cases z <;>
    simp [SendOutcome.succFlag, SendOutcome.isOk, total_operations]

/-- C3: the process exit code is 0 iff all three sends (logs, metrics,
traces) succeed, and 1 when one or more of them fail (including all three
failing). -/
theorem main_exit_code_correct (rnd : Randomness) (env : Env) :
    ((main_run rnd env).exit_code = 0 ↔
      ((main_run rnd env).logs_result.isOk ∧
        (main_run rnd env).metrics_result.isOk ∧
        (main_run rnd env).traces_result.isOk)) ∧
    (¬((main_run rnd env).logs_result.isOk ∧
        (main_run rnd env).metrics_result.isOk ∧
        (main_run rnd env).traces_result.isOk) →
      (main_run rnd env).exit_code = 1) := by
  have h := exit_code_of_outcomes
    (send_telemetry "logs" (logs_payload rnd.current_time_ns) "logs"
      env.logs_outcomes).1
    (send_telemetry "metrics"
      (metrics_payload rnd.current_time_ns rnd.metric_value) "metrics"
      env.metrics_outcomes).1
    (send_telemetry "traces"
      (trace_payload rnd.current_time_ns (bytesToHex rnd.trace_id_bytes)
        (bytesToHex rnd.parent_span_id_bytes)
        (bytesToHex rnd.child_span_id_bytes)) "traces"
      env.traces_outcomes).1
  simpa [main_run] using h

/-- C5: regardless of the POST outcomes, the main sequence performs all three
sends (at least one POST each), every non-success is the returned exhaustion
message rather than a propagated exception, and the generated ids and the
summary line are always printed. -/
theorem main_always_proceeds_and_reports (rnd : Randomness) (env : Env) :
    1 ≤ (main_run rnd env).logs_trace.calls.length ∧
    1 ≤ (main_run rnd env).metrics_trace.calls.length ∧
    1 ≤ (main_run rnd env).traces_trace.calls.length ∧
    ((main_run rnd env).logs_result =
        .err "Failed to send logs after 3 attempts" ∨
      ∃ r, (main_run rnd env).logs_result = .ok r) ∧
    ((main_run rnd env).metrics_result =
        .err "Failed to send metrics after 3 attempts" ∨
      ∃ r, (main_run rnd env).metrics_result = .ok r) ∧
    ((main_run rnd env).traces_result =
        .err "Failed to send traces after 3 attempts" ∨
      ∃ r, (main_run rnd env).traces_result = .ok r) ∧
    ("Generated traceId: " ++ bytesToHex rnd.trace_id_bytes) ∈
      (main_run rnd env).printed ∧
    ("Generated parent spanId: " ++ bytesToHex rnd.parent_span_id_bytes) ∈
      (main_run rnd env).printed ∧
    ("Generated child spanId: " ++ bytesToHex rnd.child_span_id_bytes) ∈
      (main_run rnd env).printed ∧
    ("\nSummary: " ++ toString (main_run rnd env).success_count ++ "/" ++
        toString total_operations ++ " operations completed successfully") ∈
      (main_run rnd env).printed := by
  refine ⟨?_, ?_, ?_, ?_, ?_, ?_, ?_, ?_, ?_, ?_⟩
  · simpa [main_run, send_telemetry] using
      sendLoopAux_calls_cons (url_base ++ "/" ++ "logs")
        (logs_payload rnd.current_time_ns) "logs" env.logs_outcomes
        0 [1, 2] ⟨[], []⟩
  · simpa [main_run, send_telemetry] using
      sendLoopAux_calls_cons (url_base ++ "/" ++ "metrics")
        (metrics_payload rnd.current_time_ns rnd.metric_value) "metrics"
        env.metrics_outcomes 0 [1, 2] ⟨[], []⟩
  · simpa [main_run, send_telemetry] using
      sendLoopAux_calls_cons (url_base ++ "/" ++ "traces")
        (trace_payload rnd.current_time_ns (bytesToHex rnd.trace_id_bytes)
          (bytesToHex rnd.parent_span_id_bytes)
          (bytesToHex rnd.child_span_id_bytes)) "traces"
        env.traces_outcomes 0 [1, 2] ⟨[], []⟩
  · have hmsg : ("Failed to send " ++ "logs" ++ " after " ++
        toString MAX_RETRIES ++ " attempts") =
        "Failed to send logs after 3 attempts" := by decide
    have h := sendLoopAux_result_shape (url_base ++ "/" ++ "logs")
      (logs_payload rnd.current_time_ns) "logs" env.logs_outcomes
      (List.range MAX_RETRIES) ⟨[], []⟩
    rw [hmsg] at h
    simpa [main_run, send_telemetry] using h
  · have hmsg : ("Failed to send " ++ "metrics" ++ " after " ++
        toString MAX_RETRIES ++ " attempts") =
        "Failed to send metrics after 3 attempts" := by decide
    have h := sendLoopAux_result_shape (url_base ++ "/" ++ "metrics")
      (metrics_payload rnd.current_time_ns rnd.metric_value) "metrics"
      env.metrics_outcomes (List.range MAX_RETRIES) ⟨[], []⟩
    rw [hmsg] at h
    simpa [main_run, send_telemetry] using h
  · have hmsg : ("Failed to send " ++ "traces" ++ " after " ++
        toString MAX_RETRIES ++ " attempts") =
        "Failed to send traces after 3 attempts" := by decide
    have h := sendLoopAux_result_shape (url_base ++ "/" ++ "traces")
      (trace_payload rnd.current_time_ns (bytesToHex rnd.trace_id_bytes)
        (bytesToHex rnd.parent_span_id_bytes)
        (bytesToHex rnd.child_span_id_bytes)) "traces"
      env.traces_outcomes (List.range MAX_RETRIES) ⟨[], []⟩
    rw [hmsg] at h
    simpa [main_run, send_telemetry] using h
  · simp [main_run, List.mem_append]
  · simp [main_run, List.mem_append]
  · simp [main_run, List.mem_append]
  · simp [main_run, List.mem_append]

/-! ## Claim C4: status handling -/

/-- C4 counterexample: a 304 response is not in the 2xx range, yet the very
first attempt returns the success tuple after a single POST call: the code
treats only 4xx/5xx statuses as failures, not every non-2xx status. -/
theorem non2xx_success_counterexample :
    (send_telemetry "logs" (Json.obj []) "logs"
        (fun _ => PostOutcome.response ⟨304, "Not Modified"⟩)).1 =
      .ok ⟨304, "Not Modified"⟩ ∧
    (send_telemetry "logs" (Json.obj []) "logs"
        (fun _ => PostOutcome.response ⟨304, "Not Modified"⟩)).2.calls.length
      = 1 ∧
    ¬(200 ≤ 304 ∧ 304 < 300) :=
  ⟨rfl, rfl, by omega⟩

/-- C4 amended: `send_telemetry` treats a response as a failed attempt exactly
when `raise_for_status` raises, i.e. when its status is in 400..599: such a
response on the first attempt is followed by at least one further POST, while
any response with a status outside 400..599 (including non-2xx statuses such
as 3xx) yields the immediate success tuple after a single POST. -/
theorem status_failure_iff_4xx5xx (endpoint : String) (payload : Json)
    (telemetry_type : String) (outcomes : Nat → PostOutcome) (r : Response)
    (h0 : outcomes 0 = .response r) :
    ((400 ≤ r.status_code ∧ r.status_code < 600) →
      2 ≤ (send_telemetry endpoint payload telemetry_type
        outcomes).2.calls.length) ∧
    (¬(400 ≤ r.status_code ∧ r.status_code < 600) →
      send_telemetry endpoint payload telemetry_type outcomes =
        (.ok r, ⟨[⟨url_base ++ "/" ++ endpoint, headers, payload⟩], []⟩)) := by
  constructor
  · intro hin
    have hf : attemptFails (outcomes 0) = true := by
      simp only [attemptFails, h0, raiseForStatusRaises]
      exact decide_eq_true hin
    rw [show send_telemetry endpoint payload telemetry_type outcomes =
        sendLoopAux (url_base ++ "/" ++ endpoint) payload telemetry_type
          outcomes [0, 1, 2] ⟨[], []⟩ from rfl,
      sendLoopAux_step_fail _ _ _ _ 0 _ _ hf]
    have h := sendLoopAux_calls_cons (url_base ++ "/" ++ endpoint) payload
      telemetry_type outcomes 1 [2]
      ⟨([] : List PostCall) ++ [⟨url_base ++ "/" ++ endpoint, headers,
          payload⟩],
        ([] : List Nat) ++ if 0 < MAX_RETRIES - 1 then [RETRY_DELAY] else []⟩
    simpa using h
  · intro hout
    have hr : raiseForStatusRaises r.status_code = false := by
      simp only [raiseForStatusRaises, decide_eq_false_iff_not]
      exact hout
    rw [show send_telemetry endpoint payload telemetry_type outcomes =
        sendLoopAux (url_base ++ "/" ++ endpoint) payload telemetry_type
          outcomes [0, 1, 2] ⟨[], []⟩ from rfl,
      sendLoopAux_step_ok _ _ _ _ 0 _ _ r h0 hr]
    simp

/-- Witness for the amended C4 at a 500 response on every attempt (failure
branch) is subsumed by choosing a single concrete environment; here the first
attempt returns 503, so both implications are exercised on their respective
sides: the 4xx/5xx side applies, the other side holds vacuously. -/
theorem status_failure_iff_4xx5xx_witness :
    ((fun _ => PostOutcome.response ⟨503, "Service Unavailable"⟩) 0 =
      PostOutcome.response ⟨503, "Service Unavailable"⟩) ∧
    (((400 ≤ 503 ∧ 503 < 600) →
      2 ≤ (send_telemetry "metrics" (Json.obj []) "metrics"
        (fun _ => PostOutcome.response
          ⟨503, "Service Unavailable"⟩)).2.calls.length) ∧
    (¬(400 ≤ (503 : Nat) ∧ (503 : Nat) < 600) →
      send_telemetry "metrics" (Json.obj []) "metrics"
          (fun _ => PostOutcome.response ⟨503, "Service Unavailable"⟩) =
        (.ok ⟨503, "Service Unavailable"⟩,
          ⟨[⟨url_base ++ "/" ++ "metrics", headers, Json.obj []⟩], []⟩))) :=
  ⟨rfl, status_failure_iff_4xx5xx "metrics" (Json.obj []) "metrics"
    (fun _ => PostOutcome.response ⟨503, "Service Unavailable"⟩)
    ⟨503, "Service Unavailable"⟩ rfl⟩

/-! ## Hex-encoding lemmas and claims C6-C9 -/

theorem bytesToHexChars_length (bs : List Nat) :
    (bytesToHexChars bs).length = 2 * bs.length := by
  induction bs with
  | nil => rfl
  | cons b bs ih => simp [bytesToHexChars, ih]; omega

theorem bytesToHex_length (bs : List Nat) :
    (bytesToHex bs).length = 2 * bs.length := by
  simpa [bytesToHex, String.length_mk] using bytesToHexChars_length bs

theorem hexDigit_isLowerHexDigit : ∀ n, n < 16 →
    isLowerHexDigit (hexDigit n) = true := by decide

theorem bytesToHexChars_hex (bs : List Nat) (hb : ∀ b ∈ bs, b < 256) :
    ∀ c ∈ bytesToHexChars bs, isLowerHexDigit c = true := by
  induction bs with
  | nil => intro c hc; simp [bytesToHexChars] at hc
  | cons b bs ih =>
    intro c hc
    have hb0 : b < 256 := hb b (by simp)
    have h1 : b / 16 < 16 := by omega
    have h2 : b % 16 < 16 := Nat.mod_lt _ (by omega)
    simp only [bytesToHexChars, List.mem_cons] at hc
    rcases hc with rfl | rfl | hc
    · exact hexDigit_isLowerHexDigit _ h1
    · exact hexDigit_isLowerHexDigit _ h2
    · exact ih (fun x hx => hb x (by simp [hx])) c hc

/-- C6: the trace id is 32 lowercase-hex characters, the parent and child
span ids are 16 each, the parent span carries no parentSpanId field, and the
child span's parentSpanId equals the parent span's spanId. -/
theorem trace_ids_wellformed (rnd : Randomness) (t : Nat)
    (h16 : rnd.trace_id_bytes.length = 16)
    (h8p : rnd.parent_span_id_bytes.length = 8)
    (h8c : rnd.child_span_id_bytes.length = 8)
    (hb16 : ∀ b ∈ rnd.trace_id_bytes, b < 256)
    (hb8p : ∀ b ∈ rnd.parent_span_id_bytes, b < 256)
    (hb8c : ∀ b ∈ rnd.child_span_id_bytes, b < 256) :
    (bytesToHex rnd.trace_id_bytes).length = 32 ∧
    (∀ c ∈ (bytesToHex rnd.trace_id_bytes).data,
      isLowerHexDigit c = true) ∧
    (bytesToHex rnd.parent_span_id_bytes).length = 16 ∧
    (∀ c ∈ (bytesToHex rnd.parent_span_id_bytes).data,
      isLowerHexDigit c = true) ∧
    (bytesToHex rnd.child_span_id_bytes).length = 16 ∧
    (∀ c ∈ (bytesToHex rnd.child_span_id_bytes).data,
      isLowerHexDigit c = true) ∧
    ((traceSpan t (bytesToHex rnd.trace_id_bytes)
        (bytesToHex rnd.parent_span_id_bytes)
        (bytesToHex rnd.child_span_id_bytes) 0).bind
      (fun j => j.getField "parentSpanId") = none) ∧
    ((traceSpan t (bytesToHex rnd.trace_id_bytes)
        (bytesToHex rnd.parent_span_id_bytes)
        (bytesToHex rnd.child_span_id_bytes) 1).bind
      (fun j => j.getField "parentSpanId") =
      some (.str (bytesToHex rnd.parent_span_id_bytes))) ∧
    ((traceSpan t (bytesToHex rnd.trace_id_bytes)
        (bytesToHex rnd.parent_span_id_bytes)
        (bytesToHex rnd.child_span_id_bytes) 0).bind
      (fun j => j.getField "spanId") =
      some (.str (bytesToHex rnd.parent_span_id_bytes))) := by
  refine ⟨?_, ?_, ?_, ?_, ?_, ?_, rfl, rfl, rfl⟩
  · rw [bytesToHex_length, h16]
  · simpa [bytesToHex] using bytesToHexChars_hex rnd.trace_id_bytes hb16
  · rw [bytesToHex_length, h8p]
  · simpa [bytesToHex] using
      bytesToHexChars_hex rnd.parent_span_id_bytes hb8p
  · rw [bytesToHex_length, h8c]
  · simpa [bytesToHex] using
      bytesToHexChars_hex rnd.child_span_id_bytes hb8c

/-- Witness for C6 at concrete random bytes (16 bytes of 171, two runs of 8
bytes of 5 and 6) and timestamp 0. -/
theorem trace_ids_wellformed_witness :
    ((List.replicate 16 171).length = 16 ∧
      (List.replicate 8 5).length = 8 ∧
      (List.replicate 8 6).length = 8 ∧
      (∀ b ∈ List.replicate 16 171, b < 256) ∧
      (∀ b ∈ List.replicate 8 5, b < 256) ∧
      (∀ b ∈ List.replicate 8 6, b < 256)) ∧
    ((bytesToHex (List.replicate 16 171)).length = 32 ∧
    (∀ c ∈ (bytesToHex (List.replicate 16 171)).data,
      isLowerHexDigit c = true) ∧
    (bytesToHex (List.replicate 8 5)).length = 16 ∧
    (∀ c ∈ (bytesToHex (List.replicate 8 5)).data,
      isLowerHexDigit c = true) ∧
    (bytesToHex (List.replicate 8 6)).length = 16 ∧
    (∀ c ∈ (bytesToHex (List.replicate 8 6)).data,
      isLowerHexDigit c = true) ∧
    ((traceSpan 0 (bytesToHex (List.replicate 16 171))
        (bytesToHex (List.replicate 8 5))
        (bytesToHex (List.replicate 8 6)) 0).bind
      (fun j => j.getField "parentSpanId") = none) ∧
    ((traceSpan 0 (bytesToHex (List.replicate 16 171))
        (bytesToHex (List.replicate 8 5))
        (bytesToHex (List.replicate 8 6)) 1).bind
      (fun j => j.getField "parentSpanId") =
      some (.str (bytesToHex (List.replicate 8 5)))) ∧
    ((traceSpan 0 (bytesToHex (List.replicate 16 171))
        (bytesToHex (List.replicate 8 5))
        (bytesToHex (List.replicate 8 6)) 0).bind
      (fun j => j.getField "spanId") =
      some (.str (bytesToHex (List.replicate 8 5))))) :=
  ⟨⟨by decide, by decide, by decide, by decide, by decide, by decide⟩,
    trace_ids_wellformed ⟨0, 0, List.replicate 16 171, List.replicate 8 5,
      List.replicate 8 6⟩ 0 (by decide) (by decide) (by decide) (by decide)
      (by decide) (by decide)⟩

/-- C7: the parent span covers [t, t + 30 s] and the child span
[t + 5 s, t + 15 s] in nanoseconds (5 s start offset, 10 s duration), so the
child window lies inside the parent window. -/
theorem span_time_windows (t : Nat) (tid pid cid : String) :
    ((traceSpan t tid pid cid 0).bind
      (fun j => j.getField "startTimeUnixNano") =
      some (.str (toString t))) ∧
    ((traceSpan t tid pid cid 0).bind
      (fun j => j.getField "endTimeUnixNano") =
      some (.str (toString (t + 30000000000)))) ∧
    ((traceSpan t tid pid cid 1).bind
      (fun j => j.getField "startTimeUnixNano") =
      some (.str (toString (t + 5000000000)))) ∧
    ((traceSpan t tid pid cid 1).bind
      (fun j => j.getField "endTimeUnixNano") =
      some (.str (toString (t + 15000000000)))) ∧
    t ≤ t + 5000000000 ∧
    t + 5000000000 + 10000000000 = t + 15000000000 ∧
    t + 15000000000 ≤ t + 30000000000 :=
  ⟨rfl, rfl, rfl, rfl, by omega, by omega, by omega⟩

/-- C8: the gauge data point's asInt value is the drawn integer, which lies
in [0, 100] whenever the draw satisfies the `random.randint(0, 100)`
contract. -/
theorem metric_gauge_in_range (t v : Nat) (hv : v ≤ 100) :
    (metricDataPoint t v).bind (fun j => j.getField "asInt") =
      some (.num (v : Int)) ∧
    0 ≤ (v : Int) ∧ (v : Int) ≤ 100 :=
  ⟨rfl, by omega, by omega⟩

/-- Witness for C8 at t = 0 and drawn value 57. -/
theorem metric_gauge_in_range_witness :
    (57 : Nat) ≤ 100 ∧
    ((metricDataPoint 0 57).bind (fun j => j.getField "asInt") =
      some (.num ((57 : Nat) : Int)) ∧
    0 ≤ ((57 : Nat) : Int) ∧ ((57 : Nat) : Int) ≤ 100) :=
  ⟨by decide, metric_gauge_in_range 0 57 (by decide)⟩

/-- C9: with the three payloads built from the same captured timestamp t (as
`main_run` builds them from `rnd.current_time_ns`), the log record's
timeUnixNano, the metric data point's timeUnixNano, and the parent span's
startTimeUnixNano are all the string encoding of t. -/
theorem payloads_share_timestamp (t v : Nat) (tid pid cid : String) :
    ((logRecord t).bind (fun j => j.getField "timeUnixNano") =
      some (.str (toString t))) ∧
    ((metricDataPoint t v).bind (fun j => j.getField "timeUnixNano") =
      some (.str (toString t))) ∧
    ((traceSpan t tid pid cid 0).bind
      (fun j => j.getField "startTimeUnixNano") =
      some (.str (toString t))) :=
  ⟨rfl, rfl, rfl⟩

/-! ## Claim C10: frame property of the retry loop -/

/-- C10: every POST recorded during one `send_telemetry` call targets the
same URL (`url_base + "/" + endpoint`), carries the same
Content-Type: application/json header, and sends the unchanged payload. -/
theorem send_telemetry_frame (endpoint : String) (payload : Json)
    (telemetry_type : String) (outcomes : Nat → PostOutcome) :
    ∀ c ∈ (send_telemetry endpoint payload telemetry_type outcomes).2.calls,
      c.url = url_base ++ "/" ++ endpoint ∧
      c.post_headers = [("Content-Type", "application/json")] ∧
      c.body = payload :=
  sendLoopAux_calls_all (url_base ++ "/" ++ endpoint) payload telemetry_type
    outcomes
    (fun c => c.url = url_base ++ "/" ++ endpoint ∧
      c.post_headers = [("Content-Type", "application/json")] ∧
      c.body = payload)
    (List.range MAX_RETRIES) ⟨[], []⟩
    (by intro c hc; simp at hc) ⟨rfl, rfl, rfl⟩

/-- Witness for C10: in an all-success run for the traces endpoint, the
single recorded call is in the calls list and has the fixed URL, header, and
payload. -/
theorem send_telemetry_frame_witness :
    ((⟨url_base ++ "/" ++ "traces", headers, Json.obj []⟩ : PostCall) ∈
      (send_telemetry "traces" (Json.obj []) "traces"
        (fun _ => PostOutcome.response ⟨200, "OK"⟩)).2.calls) ∧
    ((⟨url_base ++ "/" ++ "traces", headers, Json.obj []⟩ : PostCall).url =
        url_base ++ "/" ++ "traces" ∧
      (⟨url_base ++ "/" ++ "traces", headers,
        Json.obj []⟩ : PostCall).post_headers =
        [("Content-Type", "application/json")] ∧
      (⟨url_base ++ "/" ++ "traces", headers,
        Json.obj []⟩ : PostCall).body = Json.obj []) := by
  have hmem : (⟨url_base ++ "/" ++ "traces", headers,
      Json.obj []⟩ : PostCall) ∈
      (send_telemetry "traces" (Json.obj []) "traces"
        (fun _ => PostOutcome.response ⟨200, "OK"⟩)).2.calls := by
    show _ ∈ [(⟨url_base ++ "/" ++ "traces", headers,
      Json.obj []⟩ : PostCall)]
    exact List.mem_singleton.mpr rfl
  exact ⟨hmem, send_telemetry_frame "traces" (Json.obj []) "traces"
    (fun _ => PostOutcome.response ⟨200, "OK"⟩) _ hmem⟩
